import Mathlib

/-!
Verification of the rating/sentiment aggregation, badge assignment, combined
rating and multi-criteria filtering logic of the PetShop storefront
(src/PetShop/src/components/ItemProductList.jsx, plus the add-to-cart guard of
src/PetShop/src/components/ProductDetail.jsx).

Modelling conventions of the shallow embedding:
- JavaScript numbers are modelled as rationals (ℚ); integer counts as Nat.
- A field that may be absent, null, undefined or NaN is an Option; `none`
  stands for the non-numeric / absent case that the source filters out with
  checks such as `typeof s !== "number" || Number.isNaN(s)`.
- JavaScript string truthiness (empty string is falsy) is made explicit by
  `strTruthy`.
- Timestamps are integers (milliseconds); the current time `Date.now()` is an
  explicit parameter `now`.
- The card click handler `onAddToCart` callback is modelled by the return
  value of `handleAddToCart`: `some p` means the callback is invoked with the
  product `p`, `none` means it is not invoked.
-/

namespace PetShop

/-- A product record, with the fields read by the embedded functions.
Absent fields are `none`, mirroring a missing property in the source JSON. -/
structure Product where
  id : Nat := 0
  category : Option String := none
  created_at : Option Int := none
  stock : Option Int := none
  max_stock : Option ℚ := none
  initial_stock : Option ℚ := none
  stock_capacity : Option ℚ := none
  capacity : Option ℚ := none
  original_stock : Option ℚ := none
  inventory_limit : Option ℚ := none
  stock_limit : Option ℚ := none
  total_stock : Option ℚ := none
  owner_name : Option String := none
  owner_display_name : Option String := none
  owner : Option String := none
  owner_uid : Option String := none
deriving DecidableEq

/-- A rating-stats record as served by the rating-stats endpoint and consumed
by ItemProductList.jsx. -/
structure RatingData where
  rating_count : Nat := 0
  average_rating : ℚ := 0
  average_sentiment : Option ℚ := none
  comment_count : Nat := 0
  badge_label : Option String := none
deriving DecidableEq

/-- JavaScript string truthiness: an absent or empty string is falsy. -/
def strTruthy : Option String → Option String
  | none => none
  | some s => if s = "" then none else some s

/-- Embeds normalizeSentiment (ItemProductList.jsx lines 87-92) on a numeric
argument: a legacy polarity in [-1, 1] is mapped affinely onto [1, 10],
anything else is clamped into [1, 10].  The `s = 0` branch of the source is
kept although it is unreachable (0 lies in [-1, 1]). -/
def normalizeSentimentQ (s : ℚ) : ℚ :=
  if -1 ≤ s ∧ s ≤ 1 then 11 / 2 + 9 / 2 * s
  else if s = 0 then 11 / 2
  else max 1 (min 10 s)

/-- Embeds normalizeSentiment including its non-number guard: a non-numeric or
NaN argument yields null (`none`). -/
def normalizeSentiment : Option ℚ → Option ℚ
  | none => none
  | some s => some (normalizeSentimentQ s)

/-- JavaScript Math.round on a rational: round half toward positive
infinity. -/
def jsRound (x : ℚ) : ℤ :=
  ⌊x + 1 / 2⌋

/-- Result record of calculateCombinedRating. -/
structure CombinedRating where
  stars : ℚ
  displayRating : ℚ
  hasRatings : Bool
  avgSentiment : Option ℚ
deriving DecidableEq

/-- Embeds calculateCombinedRating (ItemProductList.jsx lines 94-109). -/
def calculateCombinedRating : Option RatingData → CombinedRating
  | none => ⟨0, 0, false, none⟩
  | some rd =>
    if rd.rating_count = 0 then ⟨0, 0, false, none⟩
    else
      let starRating := rd.average_rating
      let s1to10 := normalizeSentiment rd.average_sentiment
      let polarity : ℚ := match s1to10 with
        | some v => (v - 11 / 2) / (9 / 2)
        | none => 0
      let sentimentAdjustment := polarity * (1 / 2)
      let combinedRating := max 0 (min 5 (starRating + sentimentAdjustment))
      ⟨(jsRound (combinedRating * 2) : ℚ) / 2, combinedRating, true, s1to10⟩

/-- Embeds getMaxStock (ItemProductList.jsx lines 135-142): the first numeric
candidate field that is finite and positive, else null. -/
def getMaxStock (p : Product) : Option ℚ :=
  ([p.max_stock, p.initial_stock, p.stock_capacity, p.capacity,
    p.original_stock, p.inventory_limit, p.stock_limit,
    p.total_stock].filterMap id).find? (fun n => decide (0 < n))

/-- Stock state of a product card; the CSS class strings of the source are
presentational only and are not modelled. -/
structure StockState where
  key : String
  label : String
  disableCart : Bool
deriving DecidableEq

/-- Embeds getStockState (ItemProductList.jsx lines 144-165).
`Number(p?.stock) || 0` is `p.stock.getD 0`. -/
def getStockState (p : Product) : StockState :=
  let stock := p.stock.getD 0
  if stock = 0 then ⟨"out", "Out of Stock", true⟩
  else if stock < 10 then ⟨"almost", "Almost Out of Stock", false⟩
  else
    match getMaxStock p with
    | some m => if (stock : ℚ) ≤ m / 2 then ⟨"half", "In Stock", false⟩
                else ⟨"ok", "In Stock", false⟩
    | none => ⟨"ok", "In Stock", false⟩

/-- Embeds handleAddToCart (ItemProductList.jsx lines 167-172):
`some p` means the onAddToCart callback fires with `p`, `none` that the
handler returned without invoking it. -/
def handleAddToCart (p : Product) : Option Product :=
  if (getStockState p).disableCart then none else some p

/-- Embeds the disabled condition of the Add to Cart button of
ProductDetail.jsx (line 329): `product.stock === 0`, a strict comparison with
no numeric coercion, so an absent stock field compares false. -/
def productDetailCartDisabled (p : Product) : Bool :=
  match p.stock with
  | some n => decide (n = 0)
  | none => false

/-- The `createdAt && createdAt > twoWeeksAgo` recency test of computeBadge:
true when a creation timestamp is present and lies strictly after
`now` minus fourteen days. -/
def recentlyCreated (now : ℤ) : Option ℤ → Bool
  | some c => decide (now - 14 * 24 * 60 * 60 * 1000 < c)
  | none => false

/-- Embeds computeBadge (ItemProductList.jsx lines 184-196).  `now` is
`Date.now()` in milliseconds. -/
def computeBadge (now : ℤ) (p : Product) (rd : Option RatingData) : String :=
  match strTruthy (rd.bind (fun r => r.badge_label)) with
  | some lbl => lbl
  | none =>
    let avgSent : ℚ := (normalizeSentiment (rd.bind (fun r => r.average_sentiment))).getD 0
    let ratingCount : Nat := (rd.map (fun r => r.rating_count)).getD 0
    if 8 ≤ avgSent then "Most Favourite"
    else if 13 / 2 ≤ avgSent then
      "Popular among " ++ (match strTruthy p.category with
        | some c => c
        | none => "pets")
    else if 9 / 2 ≤ avgSent then "Try Me"
    else if ratingCount = 0 ∧ recentlyCreated now p.created_at = true then
      "Not rated / Recently added"
    else "Pet Favorite"

/-- Embeds ownerName (ItemProductList.jsx lines 198-199); `||` chains skip
falsy (absent or empty) strings, and `String(uid).slice(-6)` keeps the last
six characters. -/
def ownerName (p : Product) : String :=
  match strTruthy p.owner_name with
  | some s => s
  | none =>
    match strTruthy p.owner_display_name with
    | some s => s
    | none =>
      match strTruthy p.owner with
      | some s => s
      | none =>
        match strTruthy p.owner_uid with
        | some uid => "User " ++ uid.takeRight 6
        | none => "Owner"

/-- One entry of RATING_BUCKETS: a key, a display label, and a predicate on an
optional rating-stats record. -/
structure RatingBucket where
  key : String
  label : String
  test : Option RatingData → Bool

/-- Test of the "No ratings" bucket: `!rd || (rd.rating_count|0) === 0`. -/
def bucketTestNone : Option RatingData → Bool
  | none => true
  | some r => decide (r.rating_count = 0)

/-- Test of the "4.5 - 5.0" bucket. -/
def bucketTest45 : Option RatingData → Bool
  | none => false
  | some r => decide (0 < r.rating_count ∧ 9 / 2 ≤ r.average_rating)

/-- Test of the "4.0 - 4.49" bucket. -/
def bucketTest40 : Option RatingData → Bool
  | none => false
  | some r => decide (0 < r.rating_count ∧ 4 ≤ r.average_rating ∧ r.average_rating < 9 / 2)

/-- Test of the "3.0 - 3.99" bucket. -/
def bucketTest30 : Option RatingData → Bool
  | none => false
  | some r => decide (0 < r.rating_count ∧ 3 ≤ r.average_rating ∧ r.average_rating < 4)

/-- Test of the "0 - 2.99" bucket. -/
def bucketTest00 : Option RatingData → Bool
  | none => false
  | some r => decide (0 < r.rating_count ∧ r.average_rating < 3)

/-- Embeds RATING_BUCKETS (ItemProductList.jsx lines 224-230). -/
def RATING_BUCKETS : List RatingBucket :=
  [⟨"no", "No ratings", bucketTestNone⟩,
   ⟨"45_5", "4.5 – 5.0", bucketTest45⟩,
   ⟨"4_449", "4.0 – 4.49", bucketTest40⟩,
   ⟨"3_399", "3.0 – 3.99", bucketTest30⟩,
   ⟨"0_299", "0 – 2.99", bucketTest00⟩]

/-- The four selection sets of the filter UI; JavaScript Set objects are
modelled as lists with membership, which the filter logic alone observes. -/
structure Selection where
  categories : List String := []
  owners : List String := []
  badges : List String := []
  ratingRanges : List String := []
deriving DecidableEq

/-- The empty selection: all four sets empty (the initial UI state and the
state after Clear). -/
def Selection.empty : Selection := {}

/-- The category membership test `selectedCategories.has(p.category)`: a
product without a category field matches nothing. -/
def catHas (sel : List String) : Option String → Bool
  | some c => sel.contains c
  | none => false

/-- Embeds passesFilters (ItemProductList.jsx lines 233-256).  `ratings` is
the productRatings map, keyed by product id; a missing entry is `none`. -/
def passesFilters (now : ℤ) (ratings : Nat → Option RatingData) (sel : Selection)
    (p : Product) : Bool :=
  let rd := ratings p.id
  if decide (0 < sel.categories.length) && !(catHas sel.categories p.category) then false
  else if decide (0 < sel.owners.length) && !(sel.owners.contains (ownerName p)) then false
  else if decide (0 < sel.badges.length) && !(sel.badges.contains (computeBadge now p rd)) then false
  else if decide (0 < sel.ratingRanges.length) &&
      !((RATING_BUCKETS.filter (fun b => sel.ratingRanges.contains b.key)).any
          (fun b => b.test rd)) then false
  else true

/-- Embeds filteredProducts (ItemProductList.jsx lines 258-262). -/
def filteredProducts (now : ℤ) (ratings : Nat → Option RatingData) (sel : Selection)
    (products : List Product) : List Product :=
  products.filter (passesFilters now ratings sel)

/-- The unique rating bucket a stats record falls into (derived from the
bucket predicates, which are mutually exclusive and exhaustive); used to state
the filter-membership law. -/
def bucketKey : Option RatingData → String
  | none => "no"
  | some r =>
    if r.rating_count = 0 then "no"
    else if 9 / 2 ≤ r.average_rating then "45_5"
    else if 4 ≤ r.average_rating then "4_449"
    else if 3 ≤ r.average_rating then "3_399"
    else "0_299"

/-- Modelled from the spec wording of section 4.4, for comparison with the
source function calculateCombinedRating: combined =
clamp(average_rating + ((s - 5.5) / 4.5) * 0.5, 0, 5), where s is the
normalized average sentiment and the sentiment term is 0 when
average_sentiment is undefined. -/
def specCombinedFormula (rd : RatingData) : ℚ :=
  max 0 (min 5 (rd.average_rating +
    (match normalizeSentiment rd.average_sentiment with
     | some s => (s - 11 / 2) / (9 / 2) * (1 / 2)
     | none => 0)))

/-! ### Helper lemmas -/

/-- jsRound is a nearest integer: no integer is strictly closer. -/
lemma jsRound_nearest (x : ℚ) (k : ℤ) :
    |x - (jsRound x : ℚ)| ≤ |x - (k : ℚ)| := by
  unfold jsRound
  set n : ℤ := ⌊x + 1 / 2⌋ with hn
  have h1 : (n : ℚ) ≤ x + 1 / 2 := Int.floor_le (x + 1 / 2)
  have h2 : x + 1 / 2 < (n : ℚ) + 1 := Int.lt_floor_add_one (x + 1 / 2)
  rcases lt_trichotomy k n with hk | hk | hk
  · have hk2 : (k : ℚ) ≤ (n : ℚ) - 1 := by
      have : (k : ℚ) + 1 ≤ (n : ℚ) := by exact_mod_cast hk
      linarith
    rw [abs_le]
    constructor
    · have : |x - (k : ℚ)| ≥ x - (k : ℚ) := le_abs_self _
      linarith [le_abs_self (x - (k : ℚ))]
    · have hxk : x - (k : ℚ) ≥ 1 / 2 := by linarith
      have : |x - (k : ℚ)| = x - (k : ℚ) := abs_of_pos (by linarith)
      linarith
  · simp [hk]
  · have hk2 : (n : ℚ) + 1 ≤ (k : ℚ) := by exact_mod_cast hk
    rw [abs_le]
    constructor
    · have hxk : (k : ℚ) - x > 1 / 2 := by linarith
      have : |x - (k : ℚ)| = (k : ℚ) - x := by
        rw [abs_sub_comm]; exact abs_of_pos (by linarith)
      linarith
    · have hxk : (k : ℚ) - x > 1 / 2 := by linarith
      have : |x - (k : ℚ)| = (k : ℚ) - x := by
        rw [abs_sub_comm]; exact abs_of_pos (by linarith)
      linarith

/-- Rounding twice the value and halving yields a nearest multiple of one
half: no half-integer is strictly closer. -/
lemma half_round_nearest (c : ℚ) (k : ℤ) :
    |c - (jsRound (c * 2) : ℚ) / 2| ≤ |c - (k : ℚ) / 2| := by
  have h := jsRound_nearest (c * 2) k
  have e1 : c - (jsRound (c * 2) : ℚ) / 2 = (c * 2 - (jsRound (c * 2) : ℚ)) / 2 := by ring
  have e2 : c - (k : ℚ) / 2 = (c * 2 - (k : ℚ)) / 2 := by ring
  rw [e1, e2, abs_div, abs_div]
  have h2 : |(2 : ℚ)| = 2 := by norm_num
  rw [h2]
  exact div_le_div_of_nonneg_right h (by norm_num) |>.trans_eq rfl

/-! ### Claim theorems -/

/-- C1: for every rating-stats record with positive rating_count and no
precomputed badge label, the precise display rating equals the clamp formula
of the spec (with the sentiment term zero when average_sentiment is
undefined), and the returned star value is a multiple of one half that is
nearest to that combined value, returned alongside the unrounded value. -/
theorem combined_rating_matches_spec (rd : RatingData)
    (hc : 0 < rd.rating_count) (_hb : rd.badge_label = none) :
    (calculateCombinedRating (some rd)).displayRating = specCombinedFormula rd ∧
    (∃ k : ℤ, (calculateCombinedRating (some rd)).stars = (k : ℚ) / 2) ∧
    ∀ k : ℤ,
      |(calculateCombinedRating (some rd)).displayRating -
          (calculateCombinedRating (some rd)).stars| ≤
        |(calculateCombinedRating (some rd)).displayRating - (k : ℚ) / 2| := by
  have hne : ¬ rd.rating_count = 0 := Nat.pos_iff_ne_zero.mp hc
  refine ⟨?_, ?_, ?_⟩
  · simp only [calculateCombinedRating, if_neg hne, specCombinedFormula]
    cases h : normalizeSentiment rd.average_sentiment with
    | none => simp
    | some v => simp
  · exact ⟨jsRound ((max 0 (min 5 (rd.average_rating +
      (match normalizeSentiment rd.average_sentiment with
       | some v => (v - 11 / 2) / (9 / 2)
       | none => 0) * (1 / 2)))) * 2),
     by simp only [calculateCombinedRating, if_neg hne]⟩
  · intro k
    simp only [calculateCombinedRating, if_neg hne]
    exact half_round_nearest _ k

/-- Witness for C1 at a concrete record: one rating of four stars, one
comment with sentiment 9. -/
theorem combined_rating_matches_spec_witness :
    0 < (RatingData.mk 1 4 (some 9) 1 none).rating_count ∧
    (RatingData.mk 1 4 (some 9) 1 none).badge_label = none ∧
    ((calculateCombinedRating (some (RatingData.mk 1 4 (some 9) 1 none))).displayRating =
        specCombinedFormula (RatingData.mk 1 4 (some 9) 1 none) ∧
      (∃ k : ℤ,
        (calculateCombinedRating (some (RatingData.mk 1 4 (some 9) 1 none))).stars = (k : ℚ) / 2) ∧
      ∀ k : ℤ,
        |(calculateCombinedRating (some (RatingData.mk 1 4 (some 9) 1 none))).displayRating -
            (calculateCombinedRating (some (RatingData.mk 1 4 (some 9) 1 none))).stars| ≤
          |(calculateCombinedRating (some (RatingData.mk 1 4 (some 9) 1 none))).displayRating -
            (k : ℚ) / 2|) :=
  ⟨by decide, rfl,
    combined_rating_matches_spec (RatingData.mk 1 4 (some 9) 1 none) (by decide) rfl⟩

/-- normalizeSentimentQ is monotone on arguments at most 1 (values below -1
are clamped to 1, the legacy polarity map is increasing). -/
lemma normalizeSentimentQ_mono_le_one (s1 s2 : ℚ) (h : s1 ≤ s2) (h2 : s2 ≤ 1) :
    normalizeSentimentQ s1 ≤ normalizeSentimentQ s2 := by
  unfold normalizeSentimentQ
  by_cases ha : -1 ≤ s1
  · have hb : -1 ≤ s2 := le_trans ha h
    rw [if_pos ⟨ha, le_trans h h2⟩, if_pos ⟨hb, h2⟩]
    linarith
  · push_neg at ha
    have hz1 : ¬ s1 = 0 := by intro hz; rw [hz] at ha; linarith
    rw [if_neg (by intro hcon; exact absurd hcon.1 (not_le.mpr ha)), if_neg hz1]
    have e1 : max 1 (min 10 s1) = 1 := by
      rw [min_eq_right (by linarith), max_eq_left (by linarith)]
    rw [e1]
    by_cases hb : -1 ≤ s2
    · rw [if_pos ⟨hb, h2⟩]; linarith
    · push_neg at hb
      have hz2 : ¬ s2 = 0 := by intro hz; rw [hz] at hb; linarith
      rw [if_neg (by intro hcon; exact absurd hcon.1 (not_le.mpr hb)), if_neg hz2]
      rw [min_eq_right (by linarith), max_eq_left (by linarith)]

/-- normalizeSentimentQ is monotone on arguments above 1 (clamp into
[1, 10]). -/
lemma normalizeSentimentQ_mono_gt_one (s1 s2 : ℚ) (h : s1 ≤ s2) (h1 : 1 < s1) :
    normalizeSentimentQ s1 ≤ normalizeSentimentQ s2 := by
  unfold normalizeSentimentQ
  have hz1 : ¬ s1 = 0 := by intro hz; rw [hz] at h1; linarith
  have hz2 : ¬ s2 = 0 := by intro hz; have := le_trans (le_of_lt h1) h; rw [hz] at this; linarith
  rw [if_neg (by intro hcon; exact absurd hcon.2 (not_le.mpr h1)), if_neg hz1,
    if_neg (by intro hcon; exact absurd hcon.2 (not_le.mpr (lt_of_lt_of_le h1 h))), if_neg hz2]
  exact max_le_max le_rfl (min_le_min le_rfl h)

/-- The combined display rating is monotone in the normalized sentiment. -/
lemma displayRating_mono_in_normalized (rd : RatingData) (s1 s2 : ℚ)
    (hc : 0 < rd.rating_count)
    (hn : normalizeSentimentQ s1 ≤ normalizeSentimentQ s2) :
    (calculateCombinedRating (some { rd with average_sentiment := some s1 })).displayRating ≤
    (calculateCombinedRating (some { rd with average_sentiment := some s2 })).displayRating := by
  have hne : ¬ rd.rating_count = 0 := Nat.pos_iff_ne_zero.mp hc
  simp only [calculateCombinedRating, normalizeSentiment, if_neg hne]
  refine max_le_max le_rfl (min_le_min le_rfl ?_)
  have h9 : (0 : ℚ) < 9 / 2 := by norm_num
  nlinarith [hn]

/-- C4 (counterexample): the combined score is not monotone in
average_sentiment.  With one rating averaging 3 stars, raising the raw
average sentiment from 1 (read as a legacy polarity, normalized to 10) to 3/2
(read on the 1-10 scale) lowers the combined score from 7/2 to 23/9. -/
theorem combined_rating_not_monotone_counterexample :
    (1 : ℚ) ≤ 3 / 2 ∧
    (calculateCombinedRating (some (RatingData.mk 1 3 (some (3 / 2)) 1 none))).displayRating <
      (calculateCombinedRating (some (RatingData.mk 1 3 (some 1) 1 none))).displayRating := by
  constructor
  · norm_num
  · show (calculateCombinedRating (some (RatingData.mk 1 3 (some (3 / 2)) 1 none))).displayRating <
      (calculateCombinedRating (some (RatingData.mk 1 3 (some 1) 1 none))).displayRating
    norm_num [calculateCombinedRating, normalizeSentiment, normalizeSentimentQ]

/-- C4 (amended): for a fixed record with positive rating_count, the combined
display rating is monotone non-decreasing in average_sentiment provided both
sentiment values lie on the same side of the legacy boundary, that is both at
most 1 (legacy polarity scale) or both above 1 (the 1-10 scale); across the
boundary monotonicity fails. -/
theorem combined_rating_monotone_amended (rd : RatingData) (s1 s2 : ℚ)
    (h : s1 ≤ s2) (hscale : s2 ≤ 1 ∨ 1 < s1) (hc : 0 < rd.rating_count) :
    (calculateCombinedRating (some { rd with average_sentiment := some s1 })).displayRating ≤
    (calculateCombinedRating (some { rd with average_sentiment := some s2 })).displayRating := by
  refine displayRating_mono_in_normalized rd s1 s2 hc ?_
  rcases hscale with h2 | h1
  · exact normalizeSentimentQ_mono_le_one s1 s2 h h2
  · exact normalizeSentimentQ_mono_gt_one s1 s2 h h1

/-- Witness for the amended C4 at concrete inputs: sentiments 2 and 8 on the
1-10 scale, one rating of 3 stars. -/
theorem combined_rating_monotone_amended_witness :
    (2 : ℚ) ≤ 8 ∧ ((8 : ℚ) ≤ 1 ∨ (1 : ℚ) < 2) ∧ 0 < (RatingData.mk 1 3 none 1 none).rating_count ∧
    (calculateCombinedRating
        (some { RatingData.mk 1 3 none 1 none with average_sentiment := some 2 })).displayRating ≤
      (calculateCombinedRating
        (some { RatingData.mk 1 3 none 1 none with average_sentiment := some 8 })).displayRating :=
  ⟨by norm_num, Or.inr (by norm_num), by decide,
    combined_rating_monotone_amended (RatingData.mk 1 3 none 1 none) 2 8
      (by norm_num) (Or.inr (by norm_num)) (by decide)⟩

/-- C2 (counterexample): the badge thresholds are not applied to the raw
average_sentiment.  A record with average_sentiment = 1 (below every
threshold) is renormalized by the legacy polarity map to 10 and receives
"Most Favourite". -/
theorem badge_thresholds_counterexample :
    (RatingData.mk 1 3 (some 1) 1 none).average_sentiment = some 1 ∧
    ¬ (8 ≤ (1 : ℚ)) ∧ ¬ (13 / 2 ≤ (1 : ℚ)) ∧ ¬ (9 / 2 ≤ (1 : ℚ)) ∧
    computeBadge 0 {} (some (RatingData.mk 1 3 (some 1) 1 none)) = "Most Favourite" := by
  refine ⟨rfl, by norm_num, by norm_num, by norm_num, ?_⟩
  norm_num [computeBadge, strTruthy, normalizeSentiment, normalizeSentimentQ]

/-- C2 (amended): for a record without a precomputed badge label and with a
defined average_sentiment, the threshold rules are applied first-match-wins
to the normalized sentiment normalizeSentimentQ s: at least 8 yields
"Most Favourite" even when the lower thresholds also hold, otherwise at least
6.5 yields "Popular among {category}" with "pets" substituted when the
product has no (truthy) category, otherwise at least 4.5 yields "Try Me". -/
theorem badge_thresholds_amended (now : ℤ) (p : Product) (rd : RatingData) (s : ℚ)
    (hbl : rd.badge_label = none) (hs : rd.average_sentiment = some s) :
    (8 ≤ normalizeSentimentQ s → computeBadge now p (some rd) = "Most Favourite") ∧
    (normalizeSentimentQ s < 8 → 13 / 2 ≤ normalizeSentimentQ s →
      computeBadge now p (some rd) =
        "Popular among " ++ (match strTruthy p.category with
          | some c => c
          | none => "pets")) ∧
    (normalizeSentimentQ s < 13 / 2 → 9 / 2 ≤ normalizeSentimentQ s →
      computeBadge now p (some rd) = "Try Me") := by
  simp only [computeBadge, Option.some_bind, hbl, hs, strTruthy, normalizeSentiment,
    Option.getD_some, Option.map_some]
  refine ⟨fun h => by rw [if_pos h], fun h1 h2 => ?_, fun h1 h2 => ?_⟩
  · rw [if_neg (not_le.mpr h1), if_pos h2]
  · rw [if_neg (by linarith), if_neg (not_le.mpr h1), if_pos h2]

/-- Witness for the amended C2: average_sentiment 9 on the 1-10 scale
normalizes to 9 and yields "Most Favourite". -/
theorem badge_thresholds_amended_witness :
    (RatingData.mk 2 4 (some 9) 2 none).badge_label = none ∧
    (RatingData.mk 2 4 (some 9) 2 none).average_sentiment = some 9 ∧
    (8 ≤ normalizeSentimentQ 9 ∧
      computeBadge 5 {} (some (RatingData.mk 2 4 (some 9) 2 none)) = "Most Favourite") :=
  ⟨rfl, rfl, by decide,
    (badge_thresholds_amended 5 {} (RatingData.mk 2 4 (some 9) 2 none) 9 rfl rfl).1
      (by decide)⟩

/-- C3 (counterexample): the recency rule of computeBadge tests rating_count,
not comment_count.  A product created one second ago whose stats show zero
comments but one rating receives "Pet Favorite", where the claim predicts
"Not rated / Recently added". -/
theorem badge_recency_counterexample :
    (RatingData.mk 1 3 none 0 none).comment_count = 0 ∧
    recentlyCreated 0 ({ created_at := some (-1000) } : Product).created_at = true ∧
    (normalizeSentiment (RatingData.mk 1 3 none 0 none).average_sentiment).getD 0 < 9 / 2 ∧
    computeBadge 0 ({ created_at := some (-1000) } : Product)
      (some (RatingData.mk 1 3 none 0 none)) = "Pet Favorite" ∧
    "Pet Favorite" ≠ "Not rated / Recently added" := by
  refine ⟨rfl, by decide, by norm_num [normalizeSentiment], ?_, by decide⟩
  norm_num [computeBadge, strTruthy, normalizeSentiment, recentlyCreated]

/-- C3 (amended): for a record without a precomputed badge label whose
normalized average sentiment (0 when undefined) is below 4.5, so that the
threshold rules do not fire, the badge is "Not rated / Recently added"
exactly when rating_count is zero and a creation timestamp is present less
than fourteen days old, and "Pet Favorite" in every other case. -/
theorem badge_fallback_amended (now : ℤ) (p : Product) (rd : RatingData)
    (hbl : rd.badge_label = none)
    (hsent : (normalizeSentiment rd.average_sentiment).getD 0 < 9 / 2) :
    computeBadge now p (some rd) =
      if rd.rating_count = 0 ∧ recentlyCreated now p.created_at = true
      then "Not rated / Recently added"
      else "Pet Favorite" := by
  simp only [computeBadge, Option.some_bind, hbl, strTruthy, Option.map_some,
    Option.getD_some]
  rw [if_neg (by linarith), if_neg (by linarith), if_neg (not_le.mpr hsent)]
  simp

/-- Witness for the amended C3: zero ratings, no comments, created one
millisecond after epoch, evaluated ten milliseconds after epoch. -/
theorem badge_fallback_amended_witness :
    (RatingData.mk 0 0 none 0 none).badge_label = none ∧
    (normalizeSentiment (RatingData.mk 0 0 none 0 none).average_sentiment).getD 0 < 9 / 2 ∧
    computeBadge 10 ({ created_at := some 1 } : Product) (some (RatingData.mk 0 0 none 0 none)) =
      if (RatingData.mk 0 0 none 0 none).rating_count = 0 ∧
          recentlyCreated 10 ({ created_at := some 1 } : Product).created_at = true
      then "Not rated / Recently added"
      else "Pet Favorite" :=
  ⟨rfl, by norm_num [normalizeSentiment],
    badge_fallback_amended 10 ({ created_at := some 1 } : Product) (RatingData.mk 0 0 none 0 none)
      rfl (by norm_num [normalizeSentiment])⟩

/-- C8: when the stats record is unavailable or has rating_count zero, the
display-rating computation returns stars 0, precise value 0, and the
hasRatings flag false, so the UI branches on the flag instead of rendering a
numeric 0.0 label. -/
theorem no_ratings_flag (rd : Option RatingData)
    (h : rd = none ∨ ∃ r, rd = some r ∧ r.rating_count = 0) :
    (calculateCombinedRating rd).stars = 0 ∧
    (calculateCombinedRating rd).displayRating = 0 ∧
    (calculateCombinedRating rd).hasRatings = false := by
  rcases h with h | ⟨r, h, hr⟩ <;> subst h
  · exact ⟨rfl, rfl, rfl⟩
  · simp [calculateCombinedRating, hr]

/-- Witness for C8 at a record with zero ratings. -/
theorem no_ratings_flag_witness :
    (some (RatingData.mk 0 0 none 3 none) = none ∨
      ∃ r, some (RatingData.mk 0 0 none 3 none) = some r ∧ r.rating_count = 0) ∧
    (calculateCombinedRating (some (RatingData.mk 0 0 none 3 none))).stars = 0 ∧
    (calculateCombinedRating (some (RatingData.mk 0 0 none 3 none))).displayRating = 0 ∧
    (calculateCombinedRating (some (RatingData.mk 0 0 none 3 none))).hasRatings = false :=
  ⟨Or.inr ⟨RatingData.mk 0 0 none 3 none, rfl, rfl⟩,
    no_ratings_flag (some (RatingData.mk 0 0 none 3 none))
      (Or.inr ⟨RatingData.mk 0 0 none 3 none, rfl, rfl⟩)⟩

/-- C9: a product whose stock is zero has the cart disabled in the listing
(stock state "out" with disableCart), the list handler returns without
invoking the onAddToCart callback, and the detail-page button is disabled;
this holds for every value of the other product fields. -/
theorem zero_stock_no_cart (p : Product) (h : p.stock = some 0) :
    (getStockState p).disableCart = true ∧
    handleAddToCart p = none ∧
    productDetailCartDisabled p = true := by
  have hd : (getStockState p).disableCart = true := by
    simp [getStockState, h]
  exact ⟨hd, by simp [handleAddToCart, hd], by simp [productDetailCartDisabled, h]⟩

/-- A concrete out-of-stock product with populated fields, used as a
witness input. -/
def soldOutSample : Product :=
  { id := 7, category := some "Toys", stock := some 0, max_stock := some 20,
    owner_name := some "Ana" }

/-- Witness for C9 at a concrete out-of-stock product whose other fields are
populated. -/
theorem zero_stock_no_cart_witness :
    soldOutSample.stock = some 0 ∧
    (getStockState soldOutSample).disableCart = true ∧
    handleAddToCart soldOutSample = none ∧
    productDetailCartDisabled soldOutSample = true :=
  ⟨rfl, zero_stock_no_cart soldOutSample rfl⟩

/-- C10: a rating-stats record carrying a non-empty badge_label short-circuits
computeBadge: the server label is returned unchanged for every value of the
current time, the product fields, and the remaining stats fields, so the
threshold, recency and fallback rules are never consulted. -/
theorem server_badge_preferred (now : ℤ) (p : Product) (rd : RatingData) (lbl : String)
    (hl : rd.badge_label = some lbl) (hne : lbl ≠ "") :
    computeBadge now p (some rd) = lbl := by
  simp [computeBadge, hl, strTruthy, hne]

/-- Witness for C10 with a concrete server label on a record whose local
classification would differ. -/
theorem server_badge_preferred_witness :
    (RatingData.mk 0 0 none 0 (some "Server Badge")).badge_label = some "Server Badge" ∧
    "Server Badge" ≠ "" ∧
    computeBadge 0 {} (some (RatingData.mk 0 0 none 0 (some "Server Badge"))) = "Server Badge" :=
  ⟨rfl, by decide,
    server_badge_preferred 0 {} (RatingData.mk 0 0 none 0 (some "Server Badge")) "Server Badge"
      rfl (by decide)⟩

/-- C7: the five rating-bucket predicates match the spec table, and every
stats record satisfies exactly one of them (the filtered bucket list has
length one). -/
theorem rating_buckets_partition (r : RatingData) :
    (bucketTestNone (some r) = true ↔ r.rating_count = 0) ∧
    (bucketTest45 (some r) = true ↔ 0 < r.rating_count ∧ 9 / 2 ≤ r.average_rating) ∧
    (bucketTest40 (some r) = true ↔
      0 < r.rating_count ∧ 4 ≤ r.average_rating ∧ r.average_rating < 9 / 2) ∧
    (bucketTest30 (some r) = true ↔
      0 < r.rating_count ∧ 3 ≤ r.average_rating ∧ r.average_rating < 4) ∧
    (bucketTest00 (some r) = true ↔ 0 < r.rating_count ∧ r.average_rating < 3) ∧
    (RATING_BUCKETS.filter (fun b => b.test (some r))).length = 1 := by
  refine ⟨by simp [bucketTestNone], by simp [bucketTest45], by simp [bucketTest40],
    by simp [bucketTest30], by simp [bucketTest00], ?_⟩
  by_cases hc : r.rating_count = 0
  · have t0 : bucketTestNone (some r) = true := by simp [bucketTestNone, hc]
    have t1 : bucketTest45 (some r) = false := by simp [bucketTest45, hc]
    have t2 : bucketTest40 (some r) = false := by simp [bucketTest40, hc]
    have t3 : bucketTest30 (some r) = false := by simp [bucketTest30, hc]
    have t4 : bucketTest00 (some r) = false := by simp [bucketTest00, hc]
    simp [RATING_BUCKETS, List.filter_cons, t0, t1, t2, t3, t4]
  · have hcp : 0 < r.rating_count := Nat.pos_of_ne_zero hc
    have t0 : bucketTestNone (some r) = true ↔ False := by simp [bucketTestNone, hc]
    rcases lt_or_le r.average_rating 3 with h3 | h3
    · have t1 : bucketTest45 (some r) = false := by
        simp only [bucketTest45, decide_eq_false_iff_not]; rintro ⟨-, h⟩; linarith
      have t2 : bucketTest40 (some r) = false := by
        simp only [bucketTest40, decide_eq_false_iff_not]; rintro ⟨-, h, -⟩; linarith
      have t3 : bucketTest30 (some r) = false := by
        simp only [bucketTest30, decide_eq_false_iff_not]; rintro ⟨-, h, -⟩; linarith
      have t4 : bucketTest00 (some r) = true := by
        simp only [bucketTest00, decide_eq_true_eq]; exact ⟨hcp, h3⟩
      simp [RATING_BUCKETS, List.filter_cons, bucketTestNone, hc, t1, t2, t3, t4]
    · rcases lt_or_le r.average_rating 4 with h4 | h4
      · have t1 : bucketTest45 (some r) = false := by
          simp only [bucketTest45, decide_eq_false_iff_not]; rintro ⟨-, h⟩; linarith
        have t2 : bucketTest40 (some r) = false := by
          simp only [bucketTest40, decide_eq_false_iff_not]; rintro ⟨-, h, -⟩; linarith
        have t3 : bucketTest30 (some r) = true := by
          simp only [bucketTest30, decide_eq_true_eq]; exact ⟨hcp, h3, h4⟩
        have t4 : bucketTest00 (some r) = false := by
          simp only [bucketTest00, decide_eq_false_iff_not]; rintro ⟨-, h⟩; linarith
        simp [RATING_BUCKETS, List.filter_cons, bucketTestNone, hc, t1, t2, t3, t4]
      · rcases lt_or_le r.average_rating (9 / 2) with h45 | h45
        · have t1 : bucketTest45 (some r) = false := by
            simp only [bucketTest45, decide_eq_false_iff_not]; rintro ⟨-, h⟩; linarith
          have t2 : bucketTest40 (some r) = true := by
            simp only [bucketTest40, decide_eq_true_eq]; exact ⟨hcp, h4, h45⟩
          have t3 : bucketTest30 (some r) = false := by
            simp only [bucketTest30, decide_eq_false_iff_not]; rintro ⟨-, -, h⟩; linarith
          have t4 : bucketTest00 (some r) = false := by
            simp only [bucketTest00, decide_eq_false_iff_not]; rintro ⟨-, h⟩; linarith
          simp [RATING_BUCKETS, List.filter_cons, bucketTestNone, hc, t1, t2, t3, t4]
        · have t1 : bucketTest45 (some r) = true := by
            simp only [bucketTest45, decide_eq_true_eq]; exact ⟨hcp, h45⟩
          have t2 : bucketTest40 (some r) = false := by
            simp only [bucketTest40, decide_eq_false_iff_not]; rintro ⟨-, -, h⟩; linarith
          have t3 : bucketTest30 (some r) = false := by
            simp only [bucketTest30, decide_eq_false_iff_not]; rintro ⟨-, -, h⟩; linarith
          have t4 : bucketTest00 (some r) = false := by
            simp only [bucketTest00, decide_eq_false_iff_not]; rintro ⟨-, h⟩; linarith
          simp [RATING_BUCKETS, List.filter_cons, bucketTestNone, hc, t1, t2, t3, t4]

/-- The OR over the selected rating buckets equals membership of the (unique)
bucket key of the record in the selected key set. -/
lemma any_selected_bucket (sel : List String) (rd : Option RatingData) :
    ((RATING_BUCKETS.filter (fun b => sel.contains b.key)).any (fun b => b.test rd)) =
      sel.contains (bucketKey rd) := by
  rw [List.any_filter]
  cases rd with
  | none =>
    simp [RATING_BUCKETS, bucketTestNone, bucketTest45, bucketTest40, bucketTest30,
      bucketTest00, bucketKey]
  | some r =>
    by_cases hc : r.rating_count = 0
    · have t1 : bucketTest45 (some r) = false := by simp [bucketTest45, hc]
      have t2 : bucketTest40 (some r) = false := by simp [bucketTest40, hc]
      have t3 : bucketTest30 (some r) = false := by simp [bucketTest30, hc]
      have t4 : bucketTest00 (some r) = false := by simp [bucketTest00, hc]
      simp [RATING_BUCKETS, bucketTestNone, hc, t1, t2, t3, t4, bucketKey]
    · have hcp : 0 < r.rating_count := Nat.pos_of_ne_zero hc
      have t0 : bucketTestNone (some r) = false := by simp [bucketTestNone, hc]
      rcases lt_or_le r.average_rating 3 with h3 | h3
      · have t1 : bucketTest45 (some r) = false := by
          simp only [bucketTest45, decide_eq_false_iff_not]; rintro ⟨-, h⟩; linarith
        have t2 : bucketTest40 (some r) = false := by
          simp only [bucketTest40, decide_eq_false_iff_not]; rintro ⟨-, h, -⟩; linarith
        have t3 : bucketTest30 (some r) = false := by
          simp only [bucketTest30, decide_eq_false_iff_not]; rintro ⟨-, h, -⟩; linarith
        have t4 : bucketTest00 (some r) = true := by
          simp only [bucketTest00, decide_eq_true_eq]; exact ⟨hcp, h3⟩
        have hk : bucketKey (some r) = "0_299" := by
          simp only [bucketKey, if_neg hc]
          rw [if_neg (by intro h; linarith), if_neg (by intro h; linarith),
            if_neg (by intro h; linarith)]
        simp [RATING_BUCKETS, t0, t1, t2, t3, t4, hk]
      · rcases lt_or_le r.average_rating 4 with h4 | h4
        · have t1 : bucketTest45 (some r) = false := by
            simp only [bucketTest45, decide_eq_false_iff_not]; rintro ⟨-, h⟩; linarith
          have t2 : bucketTest40 (some r) = false := by
            simp only [bucketTest40, decide_eq_false_iff_not]; rintro ⟨-, h, -⟩; linarith
          have t3 : bucketTest30 (some r) = true := by
            simp only [bucketTest30, decide_eq_true_eq]; exact ⟨hcp, h3, h4⟩
          have t4 : bucketTest00 (some r) = false := by
            simp only [bucketTest00, decide_eq_false_iff_not]; rintro ⟨-, h⟩; linarith
          have hk : bucketKey (some r) = "3_399" := by
            simp only [bucketKey, if_neg hc]
            rw [if_neg (by intro h; linarith), if_neg (by intro h; linarith), if_pos h3]
          simp [RATING_BUCKETS, t0, t1, t2, t3, t4, hk]
        · rcases lt_or_le r.average_rating (9 / 2) with h45 | h45
          · have t1 : bucketTest45 (some r) = false := by
              simp only [bucketTest45, decide_eq_false_iff_not]; rintro ⟨-, h⟩; linarith
            have t2 : bucketTest40 (some r) = true := by
              simp only [bucketTest40, decide_eq_true_eq]; exact ⟨hcp, h4, h45⟩
            have t3 : bucketTest30 (some r) = false := by
              simp only [bucketTest30, decide_eq_false_iff_not]; rintro ⟨-, -, h⟩; linarith
            have t4 : bucketTest00 (some r) = false := by
              simp only [bucketTest00, decide_eq_false_iff_not]; rintro ⟨-, h⟩; linarith
            have hk : bucketKey (some r) = "4_449" := by
              simp only [bucketKey, if_neg hc]
              rw [if_neg (by intro h; linarith), if_pos h4]
            simp [RATING_BUCKETS, t0, t1, t2, t3, t4, hk]
          · have t1 : bucketTest45 (some r) = true := by
              simp only [bucketTest45, decide_eq_true_eq]; exact ⟨hcp, h45⟩
            have t2 : bucketTest40 (some r) = false := by
              simp only [bucketTest40, decide_eq_false_iff_not]; rintro ⟨-, -, h⟩; linarith
            have t3 : bucketTest30 (some r) = false := by
              simp only [bucketTest30, decide_eq_false_iff_not]; rintro ⟨-, -, h⟩; linarith
            have t4 : bucketTest00 (some r) = false := by
              simp only [bucketTest00, decide_eq_false_iff_not]; rintro ⟨-, h⟩; linarith
            have hk : bucketKey (some r) = "45_5" := by
              simp only [bucketKey, if_neg hc]
              rw [if_pos h45]
            simp [RATING_BUCKETS, t0, t1, t2, t3, t4, hk]

/-- The category membership test holds exactly when the product has a
category that belongs to the selected list. -/
lemma catHas_iff (sel : List String) (c : Option String) :
    catHas sel c = true ↔ ∃ s, c = some s ∧ s ∈ sel := by
  cases c with
  | none => simp [catHas]
  | some s => simp [catHas, List.elem_iff]

/-- passesFilters holds exactly when each dimension with a non-empty
selection accepts the product. -/
lemma passesFilters_eq_true_iff (now : ℤ) (ratings : Nat → Option RatingData)
    (sel : Selection) (p : Product) :
    passesFilters now ratings sel p = true ↔
      ((sel.categories ≠ [] → ∃ c, p.category = some c ∧ c ∈ sel.categories) ∧
       (sel.owners ≠ [] → ownerName p ∈ sel.owners) ∧
       (sel.badges ≠ [] → computeBadge now p (ratings p.id) ∈ sel.badges) ∧
       (sel.ratingRanges ≠ [] → bucketKey (ratings p.id) ∈ sel.ratingRanges)) := by
  unfold passesFilters
  simp only [any_selected_bucket]
  split_ifs with h1 h2 h3 h4
  · simp only [Bool.and_eq_true, decide_eq_true_eq, Bool.not_eq_true'] at h1
    refine iff_of_false (by simp) ?_
    rintro ⟨hcat, -, -, -⟩
    have hm := (catHas_iff _ _).mpr (hcat (List.length_pos.mp h1.1))
    rw [h1.2] at hm
    exact Bool.false_ne_true hm
  · simp only [Bool.and_eq_true, decide_eq_true_eq, Bool.not_eq_true'] at h2
    refine iff_of_false (by simp) ?_
    rintro ⟨-, hown, -, -⟩
    have hm : sel.owners.contains (ownerName p) = true :=
      List.elem_iff.mpr (hown (List.length_pos.mp h2.1))
    rw [h2.2] at hm
    exact Bool.false_ne_true hm
  · simp only [Bool.and_eq_true, decide_eq_true_eq, Bool.not_eq_true'] at h3
    refine iff_of_false (by simp) ?_
    rintro ⟨-, -, hbad, -⟩
    have hm : sel.badges.contains (computeBadge now p (ratings p.id)) = true :=
      List.elem_iff.mpr (hbad (List.length_pos.mp h3.1))
    rw [h3.2] at hm
    exact Bool.false_ne_true hm
  · simp only [Bool.and_eq_true, decide_eq_true_eq, Bool.not_eq_true'] at h4
    refine iff_of_false (by simp) ?_
    rintro ⟨-, -, -, hrng⟩
    have hm : sel.ratingRanges.contains (bucketKey (ratings p.id)) = true :=
      List.elem_iff.mpr (hrng (List.length_pos.mp h4.1))
    rw [h4.2] at hm
    exact Bool.false_ne_true hm
  · simp only [Bool.and_eq_true, decide_eq_true_eq, Bool.not_eq_true', not_and] at h1 h2 h3 h4
    refine iff_of_true rfl ⟨fun hne => ?_, fun hne => ?_, fun hne => ?_, fun hne => ?_⟩
    · exact (catHas_iff _ _).mp (eq_true_of_ne_false (h1 (List.length_pos.mpr hne)))
    · exact List.elem_iff.mp (eq_true_of_ne_false (h2 (List.length_pos.mpr hne)))
    · exact List.elem_iff.mp (eq_true_of_ne_false (h3 (List.length_pos.mpr hne)))
    · exact List.elem_iff.mp (eq_true_of_ne_false (h4 (List.length_pos.mpr hne)))

/-- C5: a product of the annotated list is in the filter output exactly when,
for each of the four dimensions whose selection set is non-empty, the value
of the product for that dimension (its category, its derived owner name, its
computed badge, its unique rating-bucket key) belongs to that selection set;
an empty selection set constrains nothing. -/
theorem filter_membership_law (now : ℤ) (ratings : Nat → Option RatingData)
    (sel : Selection) (ps : List Product) (p : Product) (hp : p ∈ ps) :
    p ∈ filteredProducts now ratings sel ps ↔
      ((sel.categories ≠ [] → ∃ c, p.category = some c ∧ c ∈ sel.categories) ∧
       (sel.owners ≠ [] → ownerName p ∈ sel.owners) ∧
       (sel.badges ≠ [] → computeBadge now p (ratings p.id) ∈ sel.badges) ∧
       (sel.ratingRanges ≠ [] → bucketKey (ratings p.id) ∈ sel.ratingRanges)) := by
  rw [filteredProducts, List.mem_filter, and_iff_right hp, passesFilters_eq_true_iff]

/-- A concrete annotated product used as a filter witness input. -/
def filterSampleProduct : Product :=
  { id := 1, category := some "Toys", owner_name := some "Ana", stock := some 3 }

/-- A concrete selection used as a filter witness input: one selected
category, the other dimensions unconstrained. -/
def filterSampleSelection : Selection :=
  { categories := ["Toys", "Food"] }

/-- Witness for C5 at a one-product list with a category-only selection. -/
theorem filter_membership_law_witness :
    filterSampleProduct ∈ [filterSampleProduct] ∧
    (filterSampleProduct ∈
        filteredProducts 0 (fun _ => none) filterSampleSelection [filterSampleProduct] ↔
      ((filterSampleSelection.categories ≠ [] →
          ∃ c, filterSampleProduct.category = some c ∧ c ∈ filterSampleSelection.categories) ∧
       (filterSampleSelection.owners ≠ [] →
          ownerName filterSampleProduct ∈ filterSampleSelection.owners) ∧
       (filterSampleSelection.badges ≠ [] →
          computeBadge 0 filterSampleProduct ((fun _ => none) filterSampleProduct.id) ∈
            filterSampleSelection.badges) ∧
       (filterSampleSelection.ratingRanges ≠ [] →
          bucketKey ((fun _ => none) filterSampleProduct.id) ∈
            filterSampleSelection.ratingRanges))) :=
  ⟨List.mem_singleton.mpr rfl,
    filter_membership_law 0 (fun _ => none) filterSampleSelection [filterSampleProduct]
      filterSampleProduct (List.mem_singleton.mpr rfl)⟩

/-- C6: filtering with the empty selection returns the product list
unchanged, preserving membership and order. -/
theorem empty_selection_identity (now : ℤ) (ratings : Nat → Option RatingData)
    (ps : List Product) :
    filteredProducts now ratings Selection.empty ps = ps := by
  unfold filteredProducts
  exact List.filter_eq_self.mpr (fun a _ => rfl)

end PetShop
